import Mathlib

/-!
Verification of the gfx_tutorial OpenGL tutorial programs.

Shallow embedding of the parts of the repository that the specification
talks about:

* `gfx.util.alignUp` (src/gl_cpp/src/tutorial21/include/util.hpp) —
  alignment rounding on `GLsizei` (a 32-bit signed integer, modelled as
  `Int` with C truncating division `Int.tdiv`);
* the multi-block uniform-buffer layout of the lighting tutorials
  (tutorial20 and the tutorial20 variant in src/unnamed/part_001);
* the control flow of each tutorial's `main` (GLFW/GLEW initialisation,
  shader compilation and program linking, the render loop);
* the per-frame render-loop bodies of every tutorial as event traces;
* the `glfwCreateWindow` requests and texture-file reads of each tutorial;
* `gfx.Texture` move semantics (src/unnamed/part_000);
* `gfx.Camera` keyboard and update logic
  (src/gl_cpp/src/tutorial19/include/camera.hpp).
-/

namespace Gfx

/-! ## gfx::util::alignUp

`constexpr GLsizei alignUp(GLsizei a, GLsizei b) { return (a + b - 1) / b * b; }`

`GLsizei` is a 32-bit signed integer; C++ signed division truncates toward
zero, which is `Int.tdiv`.  Overflow is excluded by hypothesis, so plain
`Int` arithmetic coincides with the machine arithmetic. -/

def alignUp (a b : Int) : Int :=
  (a + b - 1).tdiv b * b

/-- The largest value of `GLsizei` (32-bit signed int). -/
def GLSIZEI_MAX : Int := 2147483647

end Gfx

/-- C1: for every GLsizei `a ≥ 0` and `b > 0` such that `a + b - 1` does not
overflow GLsizei, `gfx::util::alignUp(a, b)` is the smallest multiple of `b`
that is greater than or equal to `a`. -/
theorem Gfx.alignUp_smallest_multiple_ge (a b : Int)
    (ha : 0 ≤ a) (hb : 0 < b) (hof : a + b - 1 ≤ Gfx.GLSIZEI_MAX) :
    b ∣ Gfx.alignUp a b ∧ a ≤ Gfx.alignUp a b ∧
      ∀ m : Int, b ∣ m → a ≤ m → Gfx.alignUp a b ≤ m := by
  have hb0 : (0:Int) ≤ b := le_of_lt hb
  have hn : (0:Int) ≤ a + b - 1 := by omega
  have htd : (a + b - 1).tdiv b = (a + b - 1) / b := Int.tdiv_eq_ediv hn hb0
  rw [Gfx.alignUp, htd]
  set n : Int := a + b - 1 with hn_def
  set q : Int := n / b with hq_def
  have hmod : b * q + n % b = n := Int.ediv_add_emod n b
  have hr0 : 0 ≤ n % b := Int.emod_nonneg n (ne_of_gt hb)
  have hrb : n % b < b := Int.emod_lt_of_pos n hb
  refine ⟨Dvd.intro q (mul_comm q b ▸ rfl), ?_, ?_⟩
  · -- a ≤ q * b
    have hqb : q * b = n - n % b := by
      have := hmod
      nlinarith [hmod]
    rw [hqb]
    omega
  · intro m hdvd hm
    obtain ⟨k, hk⟩ := hdvd
    -- q ≤ k, hence q * b ≤ k * b = m
    have hle : n ≤ b - 1 + b * k := by omega
    have h1 : n / b ≤ (b - 1 + b * k) / b := Int.ediv_le_ediv hb hle
    have h2 : (b - 1 + b * k) / b = (b - 1) / b + k :=
      Int.add_mul_ediv_left (b - 1) k (ne_of_gt hb)
    have h3 : (b - 1) / b = 0 := Int.ediv_eq_zero_of_lt (by omega) (by omega)
    have hqk : q ≤ k := by
      rw [hq_def]
      calc n / b ≤ (b - 1 + b * k) / b := h1
        _ = (b - 1) / b + k := h2
        _ = k := by rw [h3]; ring
    calc q * b ≤ k * b := mul_le_mul_of_nonneg_right hqk hb0
      _ = m := by rw [hk]; ring

/-- Witness for C1: `alignUp 5 4 = 8` is the smallest multiple of 4 that is
at least 5. -/
theorem Gfx.alignUp_smallest_multiple_ge_witness :
    (4:Int) ∣ Gfx.alignUp 5 4 ∧ (5:Int) ≤ Gfx.alignUp 5 4 ∧
      ∀ m : Int, (4:Int) ∣ m → (5:Int) ≤ m → Gfx.alignUp 5 4 ≤ m :=
  Gfx.alignUp_smallest_multiple_ge 5 4 (by decide) (by decide) (by decide)

namespace Gfx

/-! ## Multi-block uniform-buffer layout (tutorial20 / part_001)

The lighting tutorials compute, from the queried
`GL_UNIFORM_BUFFER_OFFSET_ALIGNMENT` value `uboAlignment` and the C++
`sizeof` of each uniform block struct (nonnegative machine quantities,
modelled as `Nat`):

    alignedSizeofUBOCameraT      = alignUp(sizeof(UBOCameraT), uboAlignment)
    ...
    totalSizeofUBO = alignedSizeofUBOCameraT + alignedSizeofUBOSunT
                   + alignedSizeofUBOMaterialT + alignedSizeofUBOPointLightsT
                   + alignedSizeofUBOSpotLightsT

    alignedOffsetofUBOCamera     = 0
    alignedOffsetofUBOMaterial   = alignedOffsetofUBOCamera + alignedSizeofUBOCameraT
    alignedOffsetofUBOSun        = alignedOffsetofUBOMaterial + alignedSizeofUBOMaterialT
    alignedOffsetofUBOPointLights = alignedOffsetofUBOSun + alignedSizeofUBOSunT
    alignedOffsetofUBOSpotLights = alignedOffsetofUBOPointLights + alignedSizeofUBOPointLightsT

and then maps pointers / calls `glBindBufferRange` at
`(offset_i, alignedSizeof_i)` for each block.  The struct sizes are
platform-dependent, so the layout is modelled for arbitrary sizes. -/

/-- `alignUp` on the nonnegative machine quantities involved in the UBO
layout (`sizeof` values are `size_t`; the arithmetic the code performs on
them is the same `(a + b - 1) / b * b`). -/
def alignUpN (a b : Nat) : Nat :=
  (a + b - 1) / b * b

/-- The `sizeof` of the five uniform-block structs of the tutorial20
variant in src/unnamed/part_001. -/
structure UBOSizes where
  camera : Nat
  material : Nat
  sun : Nat
  pointLights : Nat
  spotLights : Nat

def alignedSizeofUBOCameraT (q : Nat) (s : UBOSizes) : Nat := alignUpN s.camera q
def alignedSizeofUBOMaterialT (q : Nat) (s : UBOSizes) : Nat := alignUpN s.material q
def alignedSizeofUBOSunT (q : Nat) (s : UBOSizes) : Nat := alignUpN s.sun q
def alignedSizeofUBOPointLightsT (q : Nat) (s : UBOSizes) : Nat := alignUpN s.pointLights q
def alignedSizeofUBOSpotLightsT (q : Nat) (s : UBOSizes) : Nat := alignUpN s.spotLights q

/-- `totalSizeofUBO`, in the summation order of the source. -/
def totalSizeofUBO (q : Nat) (s : UBOSizes) : Nat :=
  alignedSizeofUBOCameraT q s + alignedSizeofUBOSunT q s + alignedSizeofUBOMaterialT q s
    + alignedSizeofUBOPointLightsT q s + alignedSizeofUBOSpotLightsT q s

def alignedOffsetofUBOCamera (_q : Nat) (_s : UBOSizes) : Nat := 0
def alignedOffsetofUBOMaterial (q : Nat) (s : UBOSizes) : Nat :=
  alignedOffsetofUBOCamera q s + alignedSizeofUBOCameraT q s
def alignedOffsetofUBOSun (q : Nat) (s : UBOSizes) : Nat :=
  alignedOffsetofUBOMaterial q s + alignedSizeofUBOMaterialT q s
def alignedOffsetofUBOPointLights (q : Nat) (s : UBOSizes) : Nat :=
  alignedOffsetofUBOSun q s + alignedSizeofUBOSunT q s
def alignedOffsetofUBOSpotLights (q : Nat) (s : UBOSizes) : Nat :=
  alignedOffsetofUBOPointLights q s + alignedSizeofUBOPointLightsT q s

/-- The five `(offset, size)` ranges that the tutorial maps pointers into
and passes to `glBindBufferRange`, in block order. -/
def uboBlocks (q : Nat) (s : UBOSizes) : List (Nat × Nat) :=
  [ (alignedOffsetofUBOCamera q s, alignedSizeofUBOCameraT q s),
    (alignedOffsetofUBOMaterial q s, alignedSizeofUBOMaterialT q s),
    (alignedOffsetofUBOSun q s, alignedSizeofUBOSunT q s),
    (alignedOffsetofUBOPointLights q s, alignedSizeofUBOPointLightsT q s),
    (alignedOffsetofUBOSpotLights q s, alignedSizeofUBOSpotLightsT q s) ]

/-- Two half-open byte ranges `[o₁, o₁+n₁)` and `[o₂, o₂+n₂)` are disjoint. -/
def RangesDisjoint (b1 b2 : Nat × Nat) : Prop :=
  ∀ x : Nat, ¬ ((b1.1 ≤ x ∧ x < b1.1 + b1.2) ∧ (b2.1 ≤ x ∧ x < b2.1 + b2.2))

theorem rangesDisjoint_of_le {b1 b2 : Nat × Nat} (h : b1.1 + b1.2 ≤ b2.1) :
    RangesDisjoint b1 b2 := by
  intro x hx
  omega

theorem rangesDisjoint_symm {b1 b2 : Nat × Nat} (h : RangesDisjoint b1 b2) :
    RangesDisjoint b2 b1 := by
  intro x hx
  exact h x ⟨hx.2, hx.1⟩

/-- `q` divides every `alignUpN`-rounded size. -/
theorem dvd_alignUpN (a q : Nat) : q ∣ alignUpN a q :=
  dvd_mul_left q ((a + q - 1) / q)

end Gfx

/-- C2: for every uboAlignment > 0 and any block sizes, the multi-block
uniform-buffer layout of the lighting tutorials satisfies: each block's
offset is a multiple of uboAlignment, the byte ranges of distinct blocks
are pairwise disjoint, and every block's range lies within the buffer of
size `totalSizeofUBO`. -/
theorem Gfx.uboLayout_aligned_disjoint_inbounds (q : Nat) (s : Gfx.UBOSizes)
    (hq : 0 < q) :
    (∀ b ∈ Gfx.uboBlocks q s, q ∣ b.1) ∧
    (Gfx.uboBlocks q s).Pairwise Gfx.RangesDisjoint ∧
    (∀ b ∈ Gfx.uboBlocks q s, b.1 + b.2 ≤ Gfx.totalSizeofUBO q s) := by
  have d1 : q ∣ Gfx.alignedSizeofUBOCameraT q s := Gfx.dvd_alignUpN _ _
  have d2 : q ∣ Gfx.alignedSizeofUBOMaterialT q s := Gfx.dvd_alignUpN _ _
  have d3 : q ∣ Gfx.alignedSizeofUBOSunT q s := Gfx.dvd_alignUpN _ _
  have d4 : q ∣ Gfx.alignedSizeofUBOPointLightsT q s := Gfx.dvd_alignUpN _ _
  refine ⟨?_, ?_, ?_⟩
  · intro b hb
    simp only [Gfx.uboBlocks, List.mem_cons, List.not_mem_nil, or_false] at hb
    rcases hb with h | h | h | h | h <;> subst h <;>
      simp only [Gfx.alignedOffsetofUBOCamera, Gfx.alignedOffsetofUBOMaterial,
        Gfx.alignedOffsetofUBOSun, Gfx.alignedOffsetofUBOPointLights,
        Gfx.alignedOffsetofUBOSpotLights, zero_add]
    · exact dvd_zero q
    · exact d1
    · exact Dvd.dvd.add d1 d2
    · exact Dvd.dvd.add (Dvd.dvd.add d1 d2) d3
    · exact Dvd.dvd.add (Dvd.dvd.add (Dvd.dvd.add d1 d2) d3) d4
  · rw [Gfx.uboBlocks]
    refine List.Pairwise.cons ?_ (List.Pairwise.cons ?_ (List.Pairwise.cons ?_
      (List.Pairwise.cons ?_ (List.Pairwise.cons (fun b hb => absurd hb
        (List.not_mem_nil b)) List.Pairwise.nil))))
    · intro b hb
      simp only [List.mem_cons, List.not_mem_nil, or_false] at hb
      rcases hb with h | h | h | h <;> subst h <;>
        apply Gfx.rangesDisjoint_of_le <;>
        simp only [Gfx.alignedOffsetofUBOCamera, Gfx.alignedOffsetofUBOMaterial,
          Gfx.alignedOffsetofUBOSun, Gfx.alignedOffsetofUBOPointLights,
          Gfx.alignedOffsetofUBOSpotLights] <;> omega
    · intro b hb
      simp only [List.mem_cons, List.not_mem_nil, or_false] at hb
      rcases hb with h | h | h <;> subst h <;>
        apply Gfx.rangesDisjoint_of_le <;>
        simp only [Gfx.alignedOffsetofUBOCamera, Gfx.alignedOffsetofUBOMaterial,
          Gfx.alignedOffsetofUBOSun, Gfx.alignedOffsetofUBOPointLights,
          Gfx.alignedOffsetofUBOSpotLights] <;> omega
    · intro b hb
      simp only [List.mem_cons, List.not_mem_nil, or_false] at hb
      rcases hb with h | h <;> subst h <;>
        apply Gfx.rangesDisjoint_of_le <;>
        simp only [Gfx.alignedOffsetofUBOCamera, Gfx.alignedOffsetofUBOMaterial,
          Gfx.alignedOffsetofUBOSun, Gfx.alignedOffsetofUBOPointLights,
          Gfx.alignedOffsetofUBOSpotLights] <;> omega
    · intro b hb
      simp only [List.mem_cons, List.not_mem_nil, or_false] at hb
      subst hb
      apply Gfx.rangesDisjoint_of_le
      simp only [Gfx.alignedOffsetofUBOCamera, Gfx.alignedOffsetofUBOMaterial,
        Gfx.alignedOffsetofUBOSun, Gfx.alignedOffsetofUBOPointLights,
        Gfx.alignedOffsetofUBOSpotLights]
      omega
  · intro b hb
    simp only [Gfx.uboBlocks, List.mem_cons, List.not_mem_nil, or_false] at hb
    rcases hb with h | h | h | h | h <;> subst h <;>
      simp only [Gfx.alignedOffsetofUBOCamera, Gfx.alignedOffsetofUBOMaterial,
        Gfx.alignedOffsetofUBOSun, Gfx.alignedOffsetofUBOPointLights,
        Gfx.alignedOffsetofUBOSpotLights, Gfx.totalSizeofUBO] <;>
      omega

/-- Witness for C2: the layout properties at alignment 256 and plausible
struct sizes. -/
theorem Gfx.uboLayout_aligned_disjoint_inbounds_witness :
    (∀ b ∈ Gfx.uboBlocks 256 ⟨152, 8, 48, 448, 576⟩, 256 ∣ b.1) ∧
    (Gfx.uboBlocks 256 ⟨152, 8, 48, 448, 576⟩).Pairwise Gfx.RangesDisjoint ∧
    (∀ b ∈ Gfx.uboBlocks 256 ⟨152, 8, 48, 448, 576⟩,
      b.1 + b.2 ≤ Gfx.totalSizeofUBO 256 ⟨152, 8, 48, 448, 576⟩) :=
  Gfx.uboLayout_aligned_disjoint_inbounds 256 ⟨152, 8, 48, 448, 576⟩ (by decide)

namespace Gfx

/-! ## Control flow of each tutorial's `main`

Every tutorial's `main` has the same prologue: `glfwInit` (throw
`"Failed to init GLFW!"` on failure), `glfwCreateWindow` (throw
`"Failed to create GLFW window!"` on `nullptr`), in the GLEW-based
tutorials `glewInit` (throw on nonzero error), and in the shader-based
tutorials two `loadShader` calls and one `linkProgram` call, each of which
throws a `std::runtime_error` carrying the diagnostic text on failure.
No tutorial contains a try/catch, so a thrown error propagates out of
`main` and terminates the process: in the embedding, an `Except.error`
result.  A successful run executes the render loop
(`env.frames` iterations) and returns normally. -/

/-- Outcomes of the external calls made by a tutorial's `main`, i.e. the
environment a run executes in. -/
structure MainEnv where
  glfwInitOk : Bool
  windowOk : Bool
  glewOk : Bool
  glewErrMsg : String
  vertexCompileOk : Bool
  vertexInfoLog : String
  fragmentCompileOk : Bool
  fragmentInfoLog : String
  linkOk : Bool
  linkInfoLog : String
  frames : Nat

/-- Observable milestones of a successful run of `main`. -/
inductive MainEv where
  | setup : MainEv
  | frame : MainEv
  deriving DecidableEq

/-- `loadShader` (tutorial07 … part_001): on compile failure it throws
`std::runtime_error` whose message is the info log followed by the shader
source. -/
def loadShader (ok : Bool) (infoLog src : String) : Except String Unit :=
  if ok = true then Except.ok ()
  else Except.error ("Error compiling shader: " ++ infoLog ++ "\nSource: " ++ src)

/-- `linkProgram`: on link failure it throws `std::runtime_error` carrying
the program info log. -/
def linkProgram (ok : Bool) (infoLog : String) : Except String Unit :=
  if ok = true then Except.ok ()
  else Except.error ("Error linking program: " ++ infoLog)

/-- The shared control-flow skeleton of every tutorial's `main`.
`hasGlew` is false only for tutorial01 (which never calls `glewInit`);
`hasShaders` is false for the fixed-function tutorials (01, the
hello-dot/hello-triangle mains).  `argcv`-independence is stated
separately via `mainWithArgs`. -/
def tutorialMain (hasGlew hasShaders : Bool) (vsrc fsrc : String)
    (env : MainEnv) : Except String (List MainEv) :=
  if env.glfwInitOk = false then Except.error "Failed to init GLFW!"
  else if env.windowOk = false then Except.error "Failed to create GLFW window!"
  else if hasGlew = true ∧ env.glewOk = false then
    Except.error ("Failed to init GLEW: " ++ env.glewErrMsg)
  else if hasShaders = true then
    match loadShader env.vertexCompileOk env.vertexInfoLog vsrc with
    | Except.error e => Except.error e
    | Except.ok _ =>
      match loadShader env.fragmentCompileOk env.fragmentInfoLog fsrc with
      | Except.error e => Except.error e
      | Except.ok _ =>
        match linkProgram env.linkOk env.linkInfoLog with
        | Except.error e => Except.error e
        | Except.ok _ =>
          Except.ok (MainEv.setup :: List.replicate env.frames MainEv.frame)
  else Except.ok (MainEv.setup :: List.replicate env.frames MainEv.frame)

/-- Whether a run of `main` ever entered the render loop. -/
def loopEntered : Except String (List MainEv) → Bool
  | Except.ok evs => evs.contains MainEv.frame
  | Except.error _ => false

/-- A run of `main` returns normally exactly when every checked
initialisation step succeeded. -/
theorem tutorialMain_ok_iff (hasGlew hasShaders : Bool) (vsrc fsrc : String)
    (env : MainEnv) :
    (∃ evs, tutorialMain hasGlew hasShaders vsrc fsrc env = Except.ok evs) ↔
      (env.glfwInitOk = true ∧ env.windowOk = true ∧
        (hasGlew = true → env.glewOk = true) ∧
        (hasShaders = true → env.vertexCompileOk = true ∧
          env.fragmentCompileOk = true ∧ env.linkOk = true)) := by
  obtain ⟨gi, wo, go, gm, vc, vl, fc, fl, lo, ll, fr⟩ := env
  cases gi <;> cases wo <;> cases go <;> cases hasGlew <;> cases hasShaders <;>
    cases vc <;> cases fc <;> cases lo <;>
    simp [tutorialMain, loadShader, linkProgram]

end Gfx

/-- C3: in every tutorial, a GLFW init failure, a window creation failure,
a shader compile failure or a program link failure aborts the process via a
thrown `std::runtime_error` carrying the diagnostic text; there is no
recovery path: `main` never returns normally and the render loop is never
entered on these failures. -/
theorem Gfx.mainFailures_abort_without_recovery (hasGlew hasShaders : Bool)
    (vsrc fsrc : String) (env : Gfx.MainEnv) :
    (env.glfwInitOk = false →
      Gfx.tutorialMain hasGlew hasShaders vsrc fsrc env =
        Except.error "Failed to init GLFW!") ∧
    (env.glfwInitOk = true → env.windowOk = false →
      Gfx.tutorialMain hasGlew hasShaders vsrc fsrc env =
        Except.error "Failed to create GLFW window!") ∧
    (env.glfwInitOk = true → env.windowOk = true →
      (hasGlew = true → env.glewOk = true) → hasShaders = true →
      env.vertexCompileOk = false →
      Gfx.tutorialMain hasGlew hasShaders vsrc fsrc env =
        Except.error ("Error compiling shader: " ++ env.vertexInfoLog ++
          "\nSource: " ++ vsrc)) ∧
    (env.glfwInitOk = true → env.windowOk = true →
      (hasGlew = true → env.glewOk = true) → hasShaders = true →
      env.vertexCompileOk = true → env.fragmentCompileOk = false →
      Gfx.tutorialMain hasGlew hasShaders vsrc fsrc env =
        Except.error ("Error compiling shader: " ++ env.fragmentInfoLog ++
          "\nSource: " ++ fsrc)) ∧
    (env.glfwInitOk = true → env.windowOk = true →
      (hasGlew = true → env.glewOk = true) → hasShaders = true →
      env.vertexCompileOk = true → env.fragmentCompileOk = true →
      env.linkOk = false →
      Gfx.tutorialMain hasGlew hasShaders vsrc fsrc env =
        Except.error ("Error linking program: " ++ env.linkInfoLog)) ∧
    ((env.glfwInitOk = false ∨ env.windowOk = false ∨
        (hasShaders = true ∧ (env.vertexCompileOk = false ∨
          env.fragmentCompileOk = false ∨ env.linkOk = false))) →
      (∀ evs, Gfx.tutorialMain hasGlew hasShaders vsrc fsrc env ≠ Except.ok evs) ∧
      Gfx.loopEntered (Gfx.tutorialMain hasGlew hasShaders vsrc fsrc env) = false) := by
  refine ⟨?_, ?_, ?_, ?_, ?_, ?_⟩
  · intro h1
    simp [Gfx.tutorialMain, h1]
  · intro h1 h2
    simp [Gfx.tutorialMain, h1, h2]
  · intro h1 h2 h3 h4 h5
    simp [Gfx.tutorialMain, Gfx.loadShader, h1, h2, h4, h5]
    intro hg
    simp [h3 hg]
  · intro h1 h2 h3 h4 h5 h6
    simp [Gfx.tutorialMain, Gfx.loadShader, h1, h2, h4, h5, h6]
    intro hg
    simp [h3 hg]
  · intro h1 h2 h3 h4 h5 h6 h7
    simp [Gfx.tutorialMain, Gfx.loadShader, Gfx.linkProgram, h1, h2, h4, h5, h6, h7]
    intro hg
    simp [h3 hg]
  · intro hfail
    have hnok : ¬ ∃ evs,
        Gfx.tutorialMain hasGlew hasShaders vsrc fsrc env = Except.ok evs := by
      rw [Gfx.tutorialMain_ok_iff]
      rcases hfail with h | h | ⟨hs, h | h | h⟩
      · simp [h]
      · simp [h]
      · simp [h, hs]
      · simp [h, hs]
      · simp [h, hs]
    refine ⟨fun evs hevs => hnok ⟨evs, hevs⟩, ?_⟩
    rcases hres : Gfx.tutorialMain hasGlew hasShaders vsrc fsrc env with e | evs
    · rfl
    · exact absurd ⟨evs, hres⟩ hnok

/-- Witness for C3: with a failing `glfwInit` and everything else fine, the
tutorial20-variant `main` aborts with the GLFW diagnostic. -/
theorem Gfx.mainFailures_abort_without_recovery_witness :
    Gfx.tutorialMain true true "vs" "fs"
        ⟨false, true, true, "", true, "", true, "", true, "", 3⟩ =
      Except.error "Failed to init GLFW!" :=
  (Gfx.mainFailures_abort_without_recovery true true "vs" "fs"
    ⟨false, true, true, "", true, "", true, "", true, "", 3⟩).1 rfl

namespace Gfx

/-- `int main(int argc, char** argv)` of a tutorial: the body never reads
`argc` or `argv` (no tutorial touches them), so the translation of the body
is `tutorialMain`, which does not depend on the argument parameters. -/
def mainWithArgs (_argc : Nat) (_argv : List String)
    (hasGlew hasShaders : Bool) (vsrc fsrc : String) (env : MainEnv) :
    Except String (List MainEv) :=
  tutorialMain hasGlew hasShaders vsrc fsrc env

end Gfx

/-- C5: no tutorial reads its CLI arguments: two runs of the same
tutorial's `main` that differ only in `argc`/`argv` behave identically in
every environment. -/
theorem Gfx.main_independent_of_args (argc1 argc2 : Nat)
    (argv1 argv2 : List String) (hasGlew hasShaders : Bool)
    (vsrc fsrc : String) (env : Gfx.MainEnv) :
    Gfx.mainWithArgs argc1 argv1 hasGlew hasShaders vsrc fsrc env =
      Gfx.mainWithArgs argc2 argv2 hasGlew hasShaders vsrc fsrc env :=
  rfl

namespace Gfx

/-! ## Render-loop bodies as event traces

Each tutorial's `while (!glfwWindowShouldClose(window))` body is a fixed
straight-line sequence of calls.  The body of each loop is embedded as a
list of events in source order; `uniformWrite` stands for a `glUniform*`
call or a write through the mapped uniform-buffer pointer, `draw` for
`glDrawArrays`/`glDrawElements`.  A full run of the loop is the
concatenation of `n` copies of the body. -/

inductive Ev where
  | compute : Ev
  | clear : Ev
  | useProgram : Ev
  | uniformWrite : Ev
  | bindBufferRange : Ev
  | textureBind : Ev
  | bindVertexArray : Ev
  | bindBuffer : Ev
  | enableAttrib : Ev
  | vertexAttribPointer : Ev
  | draw : Ev
  | swapBuffers : Ev
  | pollEvents : Ev
  | cameraUpdate : Ev
  | tick : Ev
  deriving DecidableEq

/-- tutorial01 loop body: clear, swap, poll (no geometry at all). -/
def tutorial01LoopBody : List Ev :=
  [Ev.clear, Ev.swapBuffers, Ev.pollEvents]

/-- Hello-dot main (first document of src/unnamed/part_000, GL 2.0):
no uniforms. -/
def helloDotLoopBody : List Ev :=
  [Ev.clear, Ev.enableAttrib, Ev.vertexAttribPointer, Ev.bindBuffer,
   Ev.draw, Ev.swapBuffers, Ev.pollEvents]

/-- tutorial04 loop body (hello triangle with a uniform-free shader pair). -/
def tutorial04LoopBody : List Ev :=
  [Ev.clear, Ev.useProgram, Ev.enableAttrib, Ev.vertexAttribPointer,
   Ev.bindBuffer, Ev.draw, Ev.swapBuffers, Ev.pollEvents]

/-- tutorial07 loop body (rotating triangle, `glUniformMatrix4fv` of
`uModel` before the draw). -/
def tutorial07LoopBody : List Ev :=
  [Ev.compute, Ev.clear, Ev.useProgram, Ev.uniformWrite,
   Ev.bindVertexArray, Ev.bindBuffer, Ev.draw, Ev.swapBuffers,
   Ev.pollEvents, Ev.tick]

/-- Fixed-function hello-triangle main (second document in the tutorial07
file, GL 2.0, no shaders). -/
def helloTriangleLoopBody : List Ev :=
  [Ev.clear, Ev.enableAttrib, Ev.vertexAttribPointer, Ev.bindBuffer,
   Ev.draw, Ev.swapBuffers, Ev.pollEvents]

/-- Tutorial08 main (src/unnamed/part_002): camera view matrix and
`glUniformMatrix4fv` of `uMvp` before the indexed draw. -/
def tutorial08LoopBody : List Ev :=
  [Ev.compute, Ev.clear, Ev.useProgram, Ev.uniformWrite,
   Ev.bindVertexArray, Ev.bindBuffer, Ev.bindBuffer, Ev.draw,
   Ev.swapBuffers, Ev.pollEvents, Ev.tick]

/-- tutorial16 loop body (`uMvp` and `uImage` uniforms, texture). -/
def tutorial16LoopBody : List Ev :=
  [Ev.compute, Ev.clear, Ev.useProgram, Ev.uniformWrite, Ev.uniformWrite,
   Ev.textureBind, Ev.bindVertexArray, Ev.bindBuffer, Ev.bindBuffer,
   Ev.draw, Ev.swapBuffers, Ev.pollEvents, Ev.cameraUpdate, Ev.tick]

/-- tutorial17 loop body: three writes through the mapped UBO pointer
(`mvp`, `color`, `ambientIntensity`), then clear, `uImage`,
`glBindBufferBase`, texture bind, draw. -/
def tutorial17LoopBody : List Ev :=
  [Ev.compute, Ev.uniformWrite, Ev.uniformWrite, Ev.uniformWrite,
   Ev.clear, Ev.useProgram, Ev.uniformWrite, Ev.bindBufferRange,
   Ev.textureBind, Ev.bindVertexArray, Ev.bindBuffer, Ev.bindBuffer,
   Ev.draw, Ev.swapBuffers, Ev.pollEvents, Ev.cameraUpdate, Ev.tick]

/-- tutorial18 loop body: six mapped-UBO writes (camera `mvp`, `world`;
sun `color`, `direction`, `ambientIntensity`, `diffuseIntensity`), then
clear, `uImage`, two `glBindBufferRange`, texture bind, draw. -/
def tutorial18LoopBody : List Ev :=
  Ev.compute :: List.replicate 6 Ev.uniformWrite ++
  [Ev.clear, Ev.useProgram, Ev.uniformWrite, Ev.bindBufferRange,
   Ev.bindBufferRange, Ev.textureBind, Ev.bindVertexArray, Ev.bindBuffer,
   Ev.bindBuffer, Ev.draw, Ev.swapBuffers, Ev.pollEvents, Ev.cameraUpdate,
   Ev.tick]

/-- tutorial19 loop body: ten mapped-UBO writes, then clear, `uImage`,
`glBindBufferBase`, texture bind, draw. -/
def tutorial19LoopBody : List Ev :=
  Ev.compute :: List.replicate 10 Ev.uniformWrite ++
  [Ev.clear, Ev.useProgram, Ev.uniformWrite, Ev.bindBufferRange,
   Ev.textureBind, Ev.bindVertexArray, Ev.bindBuffer, Ev.bindBuffer,
   Ev.draw, Ev.swapBuffers, Ev.pollEvents, Ev.cameraUpdate, Ev.tick]

/-- tutorial20 loop body: 25 mapped-UBO writes (camera 5, material 2,
sun 4, two point lights 7 each), then clear, `uImage`, four
`glBindBufferRange`, texture bind, draw. -/
def tutorial20LoopBody : List Ev :=
  Ev.compute :: List.replicate 25 Ev.uniformWrite ++
  [Ev.clear, Ev.useProgram, Ev.uniformWrite, Ev.bindBufferRange,
   Ev.bindBufferRange, Ev.bindBufferRange, Ev.bindBufferRange,
   Ev.textureBind, Ev.bindVertexArray, Ev.bindBuffer, Ev.bindBuffer,
   Ev.draw, Ev.swapBuffers, Ev.pollEvents, Ev.cameraUpdate, Ev.tick]

/-- Loop body of the tutorial20 variant in src/unnamed/part_001: 35
mapped-UBO writes (camera 6, material 2, sun 4, two point lights 7 each,
one spot light 9), then clear, `uImage`, five `glBindBufferRange`,
texture bind, draw. -/
def part001LoopBody : List Ev :=
  Ev.compute :: List.replicate 35 Ev.uniformWrite ++
  [Ev.clear, Ev.useProgram, Ev.uniformWrite, Ev.bindBufferRange,
   Ev.bindBufferRange, Ev.bindBufferRange, Ev.bindBufferRange,
   Ev.bindBufferRange, Ev.textureBind, Ev.bindVertexArray, Ev.bindBuffer,
   Ev.bindBuffer, Ev.draw, Ev.swapBuffers, Ev.pollEvents, Ev.cameraUpdate,
   Ev.tick]

/-- All render-loop bodies in the repository, one per `main`. -/
def allLoopBodies : List (List Ev) :=
  [tutorial01LoopBody, helloDotLoopBody, tutorial04LoopBody,
   tutorial07LoopBody, helloTriangleLoopBody, tutorial08LoopBody,
   tutorial16LoopBody, tutorial17LoopBody, tutorial18LoopBody,
   tutorial19LoopBody, tutorial20LoopBody, part001LoopBody]

/-- The loop bodies that update uniform data each frame. -/
def uniformLoopBodies : List (List Ev) :=
  [tutorial07LoopBody, tutorial08LoopBody, tutorial16LoopBody,
   tutorial17LoopBody, tutorial18LoopBody, tutorial19LoopBody,
   tutorial20LoopBody, part001LoopBody]

/-- In a loop body, every uniform update precedes every draw call. -/
def UniformsBeforeDraws (body : List Ev) : Prop :=
  ∀ i j : Fin body.length,
    body.get i = Ev.uniformWrite → body.get j = Ev.draw → (i : Nat) < (j : Nat)

instance (body : List Ev) : Decidable (UniformsBeforeDraws body) :=
  inferInstanceAs (Decidable (∀ i j : Fin body.length,
    body.get i = Ev.uniformWrite → body.get j = Ev.draw → (i : Nat) < (j : Nat)))

/-- The event trace of `n` iterations of a render loop. -/
def renderTrace (body : List Ev) : Nat → List Ev
  | 0 => []
  | n + 1 => renderTrace body n ++ body

theorem length_renderTrace (body : List Ev) (n : Nat) :
    (renderTrace body n).length = n * body.length := by
  induction n with
  | zero => simp [renderTrace]
  | succ n ih => simp [renderTrace, ih, Nat.succ_mul]

/-- The `k`-th iteration of an `n`-iteration run, as the slice of the full
trace from position `k * body.length` of length `body.length`. -/
def iterSlice (body : List Ev) (n k : Nat) : List Ev :=
  ((renderTrace body n).drop (k * body.length)).take body.length

theorem iterSlice_eq (body : List Ev) {n k : Nat} (h : k < n) :
    iterSlice body n k = body := by
  induction n with
  | zero => omega
  | succ n ih =>
    rcases Nat.lt_or_ge k n with hk | hk
    · have hlen : k * body.length ≤ (renderTrace body n).length := by
        rw [length_renderTrace]
        exact Nat.mul_le_mul_right _ (le_of_lt hk)
      have hlen2 : body.length ≤
          ((renderTrace body n).drop (k * body.length)).length := by
        rw [List.length_drop, length_renderTrace]
        have hmul : k * body.length + body.length ≤ n * body.length := by
          calc k * body.length + body.length
              = (k + 1) * body.length := by ring
            _ ≤ n * body.length := Nat.mul_le_mul_right _ hk
        omega
      have hih := ih hk
      unfold iterSlice at hih ⊢
      show (((renderTrace body n ++ body)).drop (k * body.length)).take
          body.length = body
      rw [List.drop_append_of_le_length hlen,
        List.take_append_of_le_length hlen2]
      exact hih
    · have hk2 : k = n := by omega
      subst hk2
      unfold iterSlice
      show (((renderTrace body k ++ body)).drop (k * body.length)).take
          body.length = body
      rw [show k * body.length = (renderTrace body k).length from
        (length_renderTrace body k).symm]
      rw [List.drop_left]
      exact List.take_length body

end Gfx

/-- C4: in every iteration of every tutorial's render loop, all uniform
updates of that iteration happen before the draw call of that iteration:
in the `k`-th iteration slice of any `n`-iteration run of any of the
loop bodies, every `uniformWrite` precedes every `draw`; moreover every
uniform-updating tutorial's body does contain both a uniform update and a
draw call, so the property is not vacuous for them. -/
theorem Gfx.renderLoop_uniforms_written_before_draw :
    (∀ body ∈ Gfx.allLoopBodies, ∀ n k : Nat, k < n →
      Gfx.UniformsBeforeDraws (Gfx.iterSlice body n k)) ∧
    (∀ body ∈ Gfx.uniformLoopBodies,
      Ev.uniformWrite ∈ body ∧ Ev.draw ∈ body) := by
  constructor
  · intro body hb n k hk
    rw [Gfx.iterSlice_eq body hk]
    fin_cases hb <;> decide
  · intro body hb
    fin_cases hb <;> decide

/-- Witness for C4: iteration 0 of a 1-iteration run of the tutorial16
loop writes its uniforms before its draw. -/
theorem Gfx.renderLoop_uniforms_written_before_draw_witness :
    Gfx.UniformsBeforeDraws (Gfx.iterSlice Gfx.tutorial16LoopBody 1 0) :=
  Gfx.renderLoop_uniforms_written_before_draw.1 Gfx.tutorial16LoopBody
    (by decide) 1 0 (by decide)

namespace Gfx

/-! ## Window requests and file accesses

Every `glfwCreateWindow` call in the repository, with its requested width,
height and title, in file order; and every file path any tutorial opens
(the single `std::ifstream` in the `gfx::Texture` constructor applied to
the hardcoded argument of each `Texture` construction).  No tutorial
opens a file for writing. -/

structure WindowRequest where
  width : Nat
  height : Nat
  title : String
  deriving DecidableEq

/-- The twelve `glfwCreateWindow(w, h, title, nullptr, nullptr)` calls of
the repository. -/
def windowRequests : List WindowRequest :=
  [ ⟨640, 480, "Tutorial07"⟩,   -- gl_cpp/src/tutorial07 (first main)
    ⟨640, 480, "Tutorial01"⟩,   -- gl_cpp/src/tutorial07 (second main)
    ⟨640, 480, "Tutorial18"⟩,   -- gl_cpp/src/tutorial18
    ⟨640, 480, "Tutorial17"⟩,   -- gl_cpp/src/tutorial17
    ⟨640, 480, "Tutorial16"⟩,   -- gl_cpp/src/tutorial16
    ⟨640, 480, "Tutorial19"⟩,   -- gl_cpp/src/tutorial19
    ⟨640, 480, "Tutorial20"⟩,   -- gl_cpp/src/tutorial20
    ⟨640, 480, "Tutorial01"⟩,   -- gl_cpp/src/tutorial04
    ⟨640, 480, "Tutorial01"⟩,   -- gl_cpp/src/tutorial01
    ⟨640, 480, "Tutorial02"⟩,   -- src/unnamed/part_000 (hello dot)
    ⟨640, 480, "Tutorial20"⟩,   -- src/unnamed/part_001
    ⟨640, 480, "Tutorial08"⟩ ]  -- src/unnamed/part_002

/-- The `gfx::Texture` constructor reads exactly the file it is given. -/
def textureCtorFileReads (fileName : String) : List String :=
  [fileName]

/-- The texture-file argument of each `gfx::Texture` construction in the
repository (tutorials 16–20 and the part_001 variant; no other tutorial
constructs a texture). -/
def textureLoads : List String :=
  [ "data/test.png",   -- gl_cpp/src/tutorial16
    "data/test.png",   -- gl_cpp/src/tutorial17
    "data/test.png",   -- gl_cpp/src/tutorial18
    "data/test.png",   -- gl_cpp/src/tutorial19
    "data/test.png",   -- gl_cpp/src/tutorial20
    "data/test.png" ]  -- src/unnamed/part_001

/-- File paths any tutorial opens for writing: there are none. -/
def fileWrites : List String := []

end Gfx

/-- C6: every window any tutorial creates is 640 by 480 pixels; no other
size is ever requested. -/
theorem Gfx.all_windows_640_480 (w : Gfx.WindowRequest)
    (hw : w ∈ Gfx.windowRequests) : w.width = 640 ∧ w.height = 480 := by
  fin_cases hw <;> exact ⟨rfl, rfl⟩

/-- Witness for C6: the first window request is 640 by 480. -/
theorem Gfx.all_windows_640_480_witness :
    (⟨640, 480, "Tutorial07"⟩ : Gfx.WindowRequest).width = 640 ∧
      (⟨640, 480, "Tutorial07"⟩ : Gfx.WindowRequest).height = 480 :=
  Gfx.all_windows_640_480 ⟨640, 480, "Tutorial07"⟩ (by simp [Gfx.windowRequests])

/-- C7: every texture-loading tutorial reads exactly the one hardcoded
path "data/test.png" (the `gfx::Texture` constructor reads exactly the
file it is handed), and no tutorial writes any file. -/
theorem Gfx.texture_path_hardcoded :
    (∀ p ∈ Gfx.textureLoads,
      p = "data/test.png" ∧
        Gfx.textureCtorFileReads p = ["data/test.png"]) ∧
    Gfx.fileWrites = [] := by
  constructor
  · intro p hp
    fin_cases hp <;> exact ⟨rfl, rfl⟩
  · rfl

/-- Witness for C7: the tutorial16 texture load reads only
"data/test.png". -/
theorem Gfx.texture_path_hardcoded_witness :
    "data/test.png" = "data/test.png" ∧
      Gfx.textureCtorFileReads "data/test.png" = ["data/test.png"] :=
  Gfx.texture_path_hardcoded.1 "data/test.png" (by simp [Gfx.textureLoads])


namespace Gfx

/-! ## gfx::Texture move semantics (src/unnamed/part_000)

    Texture::Texture(Texture&& other) noexcept {
        _handle = other._handle; _target = other._target;
        other._handle = 0; other._target = 0;
    }
    Texture::~Texture() noexcept {
        if (_handle) { glDeleteTextures(1, &_handle); }
    }
    Texture& Texture::operator= (Texture&& other) noexcept {
        std::swap(other._handle, _handle); std::swap(other._target, _target);
        return *this;
    }

A run is modelled as a list of storage slots for C++ `Texture` objects
(`none` = the object was destroyed) plus the list of handles passed to
`glDeleteTextures`, acted on by move construction, move assignment and
destruction. -/

structure Texture where
  handle : Nat
  target : Nat
  deriving DecidableEq

/-- The move constructor: the new object takes the fields of `other`, and
`other`'s handle and target are set to 0.  Returns
(new object, moved-from object). -/
def textureMoveCtor (other : Texture) : Texture × Texture :=
  (⟨other.handle, other.target⟩, ⟨0, 0⟩)

/-- Move assignment swaps the handle and target of `this` and `other`.
Returns (new this, new other). -/
def textureMoveAssign (this other : Texture) : Texture × Texture :=
  (other, this)

/-- The destructor calls `glDeleteTextures` on the stored handle only when
it is nonzero; the returned list is the handles it deletes. -/
def textureDtorDeletes (t : Texture) : List Nat :=
  if t.handle ≠ 0 then [t.handle] else []

/-- Storage slots of the live/destroyed `Texture` objects of a run plus
the handles deleted so far. -/
structure TexState where
  objs : List (Option Texture)
  deleted : List Nat

/-- The moves and destructions the claim quantifies over. -/
inductive TexOp where
  | moveCtor (src : Nat) : TexOp
  | moveAssign (dst src : Nat) : TexOp
  | destroy (i : Nat) : TexOp

/-- Write `a` into position `i` of a list (identity when out of range). -/
def setIdx : List α → Nat → α → List α
  | [], _, _ => []
  | _ :: xs, 0, a => a :: xs
  | x :: xs, n + 1, a => x :: setIdx xs n a

/-- One step of a run.  Operations addressing a destroyed or nonexistent
slot are no-ops (the C++ program would be undefined there; no tutorial
does that). -/
def texStep (s : TexState) (op : TexOp) : TexState :=
  match op with
  | TexOp.moveCtor src =>
    match s.objs[src]? with
    | some (some t) =>
      { objs := setIdx s.objs src (some (textureMoveCtor t).2) ++
          [some (textureMoveCtor t).1],
        deleted := s.deleted }
    | _ => s
  | TexOp.moveAssign dst src =>
    match s.objs[dst]?, s.objs[src]? with
    | some (some a), some (some b) =>
      { objs := setIdx (setIdx s.objs dst (some (textureMoveAssign a b).1))
          src (some (textureMoveAssign a b).2),
        deleted := s.deleted }
    | _, _ => s
  | TexOp.destroy i =>
    match s.objs[i]? with
    | some (some t) =>
      { objs := setIdx s.objs i none,
        deleted := s.deleted ++ textureDtorDeletes t }
    | _ => s

/-- A whole run. -/
def texRun (s : TexState) : List TexOp → TexState
  | [] => s
  | op :: ops => texRun (texStep s op) ops

/-- How often handle `h` occurs in one slot. -/
def optHandleCount (o : Option Texture) (h : Nat) : Nat :=
  match o with
  | some t => if t.handle = h then 1 else 0
  | none => 0

/-- How often handle `h` occurs among the live objects. -/
def handleCount : List (Option Texture) → Nat → Nat
  | [], _ => 0
  | o :: rest, h => optHandleCount o h + handleCount rest h

theorem handleCount_append (l1 l2 : List (Option Texture)) (h : Nat) :
    handleCount (l1 ++ l2) h = handleCount l1 h + handleCount l2 h := by
  induction l1 with
  | nil => simp [handleCount]
  | cons x xs ih =>
    simp [handleCount, ih]
    omega

theorem handleCount_setIdx (l : List (Option Texture)) (i : Nat)
    (o a : Option Texture) (hget : l[i]? = some o) (h : Nat) :
    handleCount (setIdx l i a) h + optHandleCount o h
      = handleCount l h + optHandleCount a h := by
  induction l generalizing i with
  | nil => simp at hget
  | cons x xs ih =>
    cases i with
    | zero =>
      simp only [List.getElem?_cons_zero, Option.some.injEq] at hget
      subst hget
      simp [setIdx, handleCount]
      omega
    | succ i =>
      simp only [List.getElem?_cons_succ] at hget
      simp only [setIdx, handleCount]
      have := ih i hget
      omega

theorem getElem_setIdx_self (l : List (Option Texture)) (i : Nat)
    (o a : Option Texture) (hget : l[i]? = some o) :
    (setIdx l i a)[i]? = some a := by
  induction l generalizing i with
  | nil => simp at hget
  | cons x xs ih =>
    cases i with
    | zero => simp [setIdx]
    | succ i =>
      simp only [List.getElem?_cons_succ] at hget
      simp only [setIdx, List.getElem?_cons_succ]
      exact ih i hget

theorem getElem_setIdx_ne (l : List (Option Texture)) (i j : Nat)
    (a : Option Texture) (hij : i ≠ j) :
    (setIdx l i a)[j]? = l[j]? := by
  induction l generalizing i j with
  | nil => simp [setIdx]
  | cons x xs ih =>
    cases i with
    | zero =>
      cases j with
      | zero => exact absurd rfl hij
      | succ j => simp [setIdx]
    | succ i =>
      cases j with
      | zero => simp [setIdx]
      | succ j =>
        simp only [setIdx, List.getElem?_cons_succ]
        exact ih i j (by omega)

/-- Each step preserves the combined count of handle `h` among live
objects and in the deletion log (for any actual handle `h ≠ 0`). -/
theorem texStep_preserves (s : TexState) (op : TexOp) (h : Nat)
    (hne : h ≠ 0) :
    handleCount (texStep s op).objs h + (texStep s op).deleted.count h
      = handleCount s.objs h + s.deleted.count h := by
  have h0 : (0 : Nat) ≠ h := fun e => hne e.symm
  cases op with
  | moveCtor src =>
    cases hg : s.objs[src]? with
    | none => simp [texStep, hg]
    | some o =>
      cases o with
      | none => simp [texStep, hg]
      | some t =>
        simp only [texStep, hg]
        have hs := handleCount_setIdx s.objs src (some t)
          (some (textureMoveCtor t).2) hg h
        rw [handleCount_append]
        simp only [textureMoveCtor, optHandleCount, handleCount] at hs ⊢
        simp only [if_neg h0] at hs
        omega
  | moveAssign dst src =>
    cases hgd : s.objs[dst]? with
    | none => simp [texStep, hgd]
    | some od =>
      cases od with
      | none => simp [texStep, hgd]
      | some a =>
        cases hgs : s.objs[src]? with
        | none => simp [texStep, hgd, hgs]
        | some os =>
          cases os with
          | none => simp [texStep, hgd, hgs]
          | some b =>
            simp only [texStep, hgd, hgs]
            by_cases hsd : src = dst
            · subst hsd
              have hab : a = b := by
                rw [hgd] at hgs
                cases hgs
                rfl
              subst hab
              have h1 := handleCount_setIdx s.objs src (some a)
                (some (textureMoveAssign a a).1) hgd h
              have hget2 := getElem_setIdx_self s.objs src (some a)
                (some (textureMoveAssign a a).1) hgd
              have h2 := handleCount_setIdx
                (setIdx s.objs src (some (textureMoveAssign a a).1)) src
                (some (textureMoveAssign a a).1)
                (some (textureMoveAssign a a).2) hget2 h
              simp only [textureMoveAssign, optHandleCount] at h1 h2 ⊢
              omega
            · have h1 := handleCount_setIdx s.objs dst (some a)
                (some (textureMoveAssign a b).1) hgd h
              have hget2 : (setIdx s.objs dst
                  (some (textureMoveAssign a b).1))[src]? = some (some b) := by
                rw [getElem_setIdx_ne s.objs dst src _ (fun e => hsd e.symm)]
                exact hgs
              have h2 := handleCount_setIdx
                (setIdx s.objs dst (some (textureMoveAssign a b).1)) src
                (some b) (some (textureMoveAssign a b).2) hget2 h
              simp only [textureMoveAssign, optHandleCount] at h1 h2 ⊢
              omega
  | destroy i =>
    cases hg : s.objs[i]? with
    | none => simp [texStep, hg]
    | some o =>
      cases o with
      | none => simp [texStep, hg]
      | some t =>
        simp only [texStep, hg]
        have hs := handleCount_setIdx s.objs i (some t) none hg h
        have hdel : (s.deleted ++ textureDtorDeletes t).count h
            = s.deleted.count h + (if t.handle = h then 1 else 0) := by
          rw [List.count_append]
          by_cases hth : t.handle = h
          · subst hth
            simp [textureDtorDeletes, hne, List.count_singleton]
          · by_cases hz : t.handle = 0
            · simp [textureDtorDeletes, hz, hth, h0]
            · simp [textureDtorDeletes, hz, hth, List.count_singleton]
        simp only [optHandleCount] at hs
        rw [hdel]
        omega

/-- A whole run preserves the combined count. -/
theorem texRun_preserves (s : TexState) (ops : List TexOp) (h : Nat)
    (hne : h ≠ 0) :
    handleCount (texRun s ops).objs h + (texRun s ops).deleted.count h
      = handleCount s.objs h + s.deleted.count h := by
  induction ops generalizing s with
  | nil => rfl
  | cons op ops ih =>
    show handleCount (texRun (texStep s op) ops).objs h +
        (texRun (texStep s op) ops).deleted.count h = _
    rw [ih (texStep s op), texStep_preserves s op h hne]

end Gfx

/-- C8: `gfx::Texture` ownership is exactly-once.  The move constructor
zeroes the source's handle, move assignment swaps the handles, the
destructor deletes only a nonzero handle, destroying a moved-from
`Texture` (handle 0) deletes nothing, and along any sequence of moves and
destructions starting from a state in which a nonzero handle `h` occurs in
at most one live object and not yet in the deletion log, `h` is deleted at
most once. -/
theorem Gfx.texture_ownership_exactly_once (s0 : Gfx.TexState)
    (ops : List Gfx.TexOp) (h : Nat) (hne : h ≠ 0)
    (hinit : Gfx.handleCount s0.objs h + s0.deleted.count h ≤ 1) :
    (Gfx.texRun s0 ops).deleted.count h ≤ 1 ∧
    (∀ t : Gfx.Texture, (Gfx.textureMoveCtor t).2.handle = 0) ∧
    (∀ t1 t2 : Gfx.Texture, Gfx.textureMoveAssign t1 t2 = (t2, t1)) ∧
    (∀ t : Gfx.Texture, t.handle = 0 → Gfx.textureDtorDeletes t = []) ∧
    (∀ s : Gfx.TexState, ∀ i : Nat, ∀ t : Gfx.Texture,
      s.objs[i]? = some (some t) → t.handle = 0 →
      (Gfx.texStep s (Gfx.TexOp.destroy i)).deleted = s.deleted) := by
  refine ⟨?_, fun t => rfl, fun t1 t2 => rfl, ?_, ?_⟩
  · have := Gfx.texRun_preserves s0 ops h hne
    omega
  · intro t ht
    simp [Gfx.textureDtorDeletes, ht]
  · intro s i t hget ht
    simp [Gfx.texStep, hget, Gfx.textureDtorDeletes, ht]

/-- Witness for C8: one texture with handle 5, moved from and then both
objects destroyed; handle 5 is deleted exactly once, never twice. -/
theorem Gfx.texture_ownership_exactly_once_witness :
    (Gfx.texRun ⟨[some ⟨5, 1⟩], []⟩
        [Gfx.TexOp.moveCtor 0, Gfx.TexOp.destroy 0,
         Gfx.TexOp.destroy 1]).deleted.count 5 ≤ 1 :=
  (Gfx.texture_ownership_exactly_once ⟨[some ⟨5, 1⟩], []⟩
    [Gfx.TexOp.moveCtor 0, Gfx.TexOp.destroy 0, Gfx.TexOp.destroy 1]
    5 (by decide) (by decide)).1

namespace Gfx

/-! ## gfx::Camera (src/gl_cpp/src/tutorial19/include/camera.hpp)

The camera state is `_pos`, `_target`, `_up` (glm::vec3) and the four
key-pressed flags.  Vector components are modelled over `ℚ` (the claims
under scrutiny are about which fields change and which vector expression
the position step equals, not about floating-point rounding).
`glm::normalize` involves a square root, so it is carried as an
uninterpreted parameter `nrm`; every theorem below holds for any
interpretation of it, in particular the real one. -/

structure V3 where
  x : ℚ
  y : ℚ
  z : ℚ
  deriving DecidableEq

def V3.zero : V3 := ⟨0, 0, 0⟩

def V3.add (a b : V3) : V3 := ⟨a.x + b.x, a.y + b.y, a.z + b.z⟩

/-- Componentwise scalar multiplication, `v * s` in glm. -/
def V3.smul (a : V3) (s : ℚ) : V3 := ⟨a.x * s, a.y * s, a.z * s⟩

/-- `glm::cross`. -/
def V3.cross (a b : V3) : V3 :=
  ⟨a.y * b.z - a.z * b.y, a.z * b.x - a.x * b.z, a.x * b.y - a.y * b.x⟩

/-- GLFW constants used by `Camera::onKeyboard`. -/
def GLFW_KEY_RIGHT : Int := 262
def GLFW_KEY_LEFT : Int := 263
def GLFW_KEY_DOWN : Int := 264
def GLFW_KEY_UP : Int := 265
def GLFW_PRESS : Int := 1

structure Camera where
  pos : V3
  target : V3
  up : V3
  upPressed : Bool
  downPressed : Bool
  leftPressed : Bool
  rightPressed : Bool
  deriving DecidableEq

/-- `Camera::onKeyboard(int key, int action)`: a switch on the four arrow
keys setting the matching flag to `action == GLFW_PRESS`; any other key
falls through to `default: break`. -/
def Camera.onKeyboard (c : Camera) (key action : Int) : Camera :=
  if key = GLFW_KEY_UP then
    { c with upPressed := action = GLFW_PRESS }
  else if key = GLFW_KEY_DOWN then
    { c with downPressed := action = GLFW_PRESS }
  else if key = GLFW_KEY_LEFT then
    { c with leftPressed := action = GLFW_PRESS }
  else if key = GLFW_KEY_RIGHT then
    { c with rightPressed := action = GLFW_PRESS }
  else c

/-- `Camera::update(float stepSize)`: two sequential if/else-if chains
assigning `step` (the second chain overwrites the first), then
`_pos += step`.  `nrm` is the uninterpreted `glm::normalize`. -/
def Camera.update (nrm : V3 → V3) (c : Camera) (stepSize : ℚ) : Camera :=
  let step0 := V3.zero
  let step1 :=
    if c.upPressed then c.target.smul stepSize
    else if c.downPressed then c.target.smul (-stepSize)
    else step0
  let step2 :=
    if c.leftPressed then (nrm (V3.cross c.target c.up)).smul stepSize
    else if c.rightPressed then (nrm (V3.cross c.up c.target)).smul stepSize
    else step1
  { c with pos := c.pos.add step2 }

theorem V3.add_zero (a : V3) : a.add V3.zero = a := by
  cases a
  simp [V3.add, V3.zero]

end Gfx

/-- C9: `Camera::update` modifies only the position: `_target`, `_up` and
the four key flags are unchanged for every state and step size, and with
no direction flag set `update` is the identity; `onKeyboard` with a key
other than the four arrow keys leaves the whole camera unchanged. -/
theorem Gfx.camera_update_modifies_only_pos (nrm : Gfx.V3 → Gfx.V3)
    (c : Gfx.Camera) (stepSize : ℚ) :
    ((c.update nrm stepSize).target = c.target ∧
     (c.update nrm stepSize).up = c.up ∧
     (c.update nrm stepSize).upPressed = c.upPressed ∧
     (c.update nrm stepSize).downPressed = c.downPressed ∧
     (c.update nrm stepSize).leftPressed = c.leftPressed ∧
     (c.update nrm stepSize).rightPressed = c.rightPressed) ∧
    (c.upPressed = false → c.downPressed = false → c.leftPressed = false →
      c.rightPressed = false → c.update nrm stepSize = c) ∧
    (∀ key action : Int,
      key ≠ Gfx.GLFW_KEY_UP → key ≠ Gfx.GLFW_KEY_DOWN →
      key ≠ Gfx.GLFW_KEY_LEFT → key ≠ Gfx.GLFW_KEY_RIGHT →
      c.onKeyboard key action = c) := by
  refine ⟨⟨rfl, rfl, rfl, rfl, rfl, rfl⟩, ?_, ?_⟩
  · intro h1 h2 h3 h4
    obtain ⟨p, t, u, up, dn, lf, rt⟩ := c
    simp only at h1 h2 h3 h4
    subst h1
    subst h2
    subst h3
    subst h4
    simp [Gfx.Camera.update, Gfx.V3.add_zero]
  · intro key action hk1 hk2 hk3 hk4
    simp [Gfx.Camera.onKeyboard, hk1, hk2, hk3, hk4]

/-- Witness for C9: a concrete camera with no key pressed is unchanged by
`update`, and an unrelated key (the escape key, 256) leaves it unchanged. -/
theorem Gfx.camera_update_modifies_only_pos_witness :
    ((⟨⟨0, 0, 0⟩, ⟨0, 0, -1⟩, ⟨0, 1, 0⟩, false, false, false, false⟩ :
        Gfx.Camera).update id 1 =
      ⟨⟨0, 0, 0⟩, ⟨0, 0, -1⟩, ⟨0, 1, 0⟩, false, false, false, false⟩) ∧
    ((⟨⟨0, 0, 0⟩, ⟨0, 0, -1⟩, ⟨0, 1, 0⟩, false, false, false, false⟩ :
        Gfx.Camera).onKeyboard 256 1 =
      ⟨⟨0, 0, 0⟩, ⟨0, 0, -1⟩, ⟨0, 1, 0⟩, false, false, false, false⟩) :=
  ⟨(Gfx.camera_update_modifies_only_pos id
      ⟨⟨0, 0, 0⟩, ⟨0, 0, -1⟩, ⟨0, 1, 0⟩, false, false, false, false⟩ 1).2.1
      rfl rfl rfl rfl,
   (Gfx.camera_update_modifies_only_pos id
      ⟨⟨0, 0, 0⟩, ⟨0, 0, -1⟩, ⟨0, 1, 0⟩, false, false, false, false⟩ 1).2.2
      256 1 (by decide) (by decide) (by decide) (by decide)⟩

/-- C10: when a lateral key is pressed together with a forward/backward
key, the lateral assignment to `step` overwrites the forward/backward
step: the position change is exactly the lateral step
`normalize(cross(_target, _up)) * stepSize` (LEFT; for RIGHT with LEFT
not pressed, `normalize(cross(_up, _target)) * stepSize`), with no
forward/backward component. -/
theorem Gfx.camera_lateral_overwrites_forward (nrm : Gfx.V3 → Gfx.V3)
    (c : Gfx.Camera) (stepSize : ℚ)
    (hfwd : c.upPressed = true ∨ c.downPressed = true) :
    (c.leftPressed = true →
      (c.update nrm stepSize).pos =
        c.pos.add ((nrm (Gfx.V3.cross c.target c.up)).smul stepSize)) ∧
    (c.leftPressed = false → c.rightPressed = true →
      (c.update nrm stepSize).pos =
        c.pos.add ((nrm (Gfx.V3.cross c.up c.target)).smul stepSize)) := by
  constructor
  · intro hl
    simp [Gfx.Camera.update, hl]
  · intro hl hr
    simp [Gfx.Camera.update, hl, hr]

/-- Witness for C10: UP and LEFT pressed together; the position change is
the lateral step only (with `nrm` instantiated to the identity). -/
theorem Gfx.camera_lateral_overwrites_forward_witness :
    ((⟨⟨0, 0, 0⟩, ⟨0, 0, -1⟩, ⟨0, 1, 0⟩, true, false, true, false⟩ :
        Gfx.Camera).update id 1).pos =
      (⟨0, 0, 0⟩ : Gfx.V3).add
        ((id (Gfx.V3.cross (⟨0, 0, -1⟩ : Gfx.V3) (⟨0, 1, 0⟩ : Gfx.V3))).smul 1) :=
  (Gfx.camera_lateral_overwrites_forward id
    ⟨⟨0, 0, 0⟩, ⟨0, 0, -1⟩, ⟨0, 1, 0⟩, true, false, true, false⟩ 1
    (Or.inl rfl)).1 rfl
